import Mathlib

/-!
# HerbTrace: chat widget and record map

A shallow embedding of the two components of `AyurTrace/ayurHerbs/src/components`:

* `Chatbot.jsx`: the React state (`isOpen`, `messages`, `input`, `loading`), the greeting
  effect, and `handleSendMessage`, split at its `await` into the part that runs in the
  submit event and the part that runs when the request settles;
* `MapComponent.jsx`: the load effect and the marker rendering.

A handler reads the state variables through the closure of the render that created it, and
writes them through the setters; a re-render is an event of its own, so that several events
may be handled by the handlers of one render. A component is a state type with a `step`
function over the events it can receive.
-/

namespace HerbTrace

/-! ## JavaScript strings -/

/-- Code points removed by `String.prototype.trim`: the ECMAScript WhiteSpace and
LineTerminator productions (TAB, LF, VT, FF, CR, SP, NBSP, the Zs category, LS, PS, BOM). -/
def isJsWhiteSpace (c : Char) : Bool :=
  let n := c.toNat
  n == 0x09 || n == 0x0A || n == 0x0B || n == 0x0C || n == 0x0D || n == 0x20 ||
  n == 0xA0 || n == 0x1680 || (0x2000 ≤ n && n ≤ 0x200A) || n == 0x2028 || n == 0x2029 ||
  n == 0x202F || n == 0x205F || n == 0x3000 || n == 0xFEFF

/-- The characters of `s.trim()`. -/
def jsTrimChars (cs : List Char) : List Char :=
  ((cs.dropWhile isJsWhiteSpace).reverse.dropWhile isJsWhiteSpace).reverse

/-- JavaScript `s.trim()`. -/
def jsTrim (s : String) : String :=
  String.mk (jsTrimChars s.data)

/-- JavaScript `s.split('@')[0]`: everything before the first `@`, all of `s` when it has none. -/
def splitAtHead (s : String) : String :=
  String.mk (s.data.takeWhile (fun c => c != '@'))

/-- JavaScript `a || b` on an optional string: `a` when it is defined and non-empty, else `b`. -/
def jsOr (a : Option String) (b : String) : String :=
  match a with
  | some v => if v = "" then b else v
  | none => b

/-! ## Chatbot.jsx: data -/

/-- Role constant `ROLES.customer`. -/
def ROLES.customer : String := "Customer"

/-- Role constant `ROLES.producer`. -/
def ROLES.producer : String := "Producer"

/-- Role constant `ROLES.processor`. -/
def ROLES.processor : String := "Processor"

/-- The `sender` field of a message. -/
inductive Sender where
  | user
  | bot
  deriving DecidableEq, Repr

/-- One entry of `messages`. `text` is `none` when the source stores `undefined`
(`data.response` of a body without that field). -/
structure ChatMessage where
  sender : Sender
  text : Option String
  deriving DecidableEq, Repr

/-- A user object: `ref` stands for the identity of the JavaScript object, `email` for its
`email` field (`none` when the field is `undefined` or `null`; line 28 only tests its
truthiness). -/
structure User where
  ref : Nat
  email : Option String
  deriving DecidableEq, Repr

/-- Values of the `currentUser` prop: `undefined`, `null`, or a user object. -/
inductive UserProp where
  | undefined
  | null
  | object (user : User)
  deriving DecidableEq, Repr

/-- `Object.is` on two values of the `currentUser` prop, the comparison React applies to the
entries of a dependency list: `undefined` and `null` are each equal to themselves only, two
objects are equal when they are the same object. -/
def objectIs : UserProp → UserProp → Bool
  | UserProp.undefined, UserProp.undefined => true
  | UserProp.null, UserProp.null => true
  | UserProp.object a, UserProp.object b => a.ref == b.ref
  | _, _ => false

/-- What `fetch(endpoint, { method, body: formData })` sends. -/
structure Request where
  method : String
  url : String
  form : List (String × String)
  deriving DecidableEq, Repr

/-- The fields `handleSendMessage` reads from the parsed body. Values of these fields are
strings when present, as in the backend's responses. -/
structure JsonBody where
  status : Option String
  response : Option String
  message : Option String
  deriving DecidableEq, Repr

/-- How `await response.json()` ends: the promise rejects (body is not JSON; or it is the JSON
`null`, so that reading `data.status` throws) with an error of the given message, or it yields
a body. -/
inductive JsonOutcome where
  | rejected (message : String)
  | parsed (data : JsonBody)
  deriving DecidableEq, Repr

/-- How `await fetch(...)` ends: it rejects with an error of the given message (transport
failure), or resolves to a response with its `ok` flag and the outcome of reading its body. -/
inductive FetchOutcome where
  | rejected (message : String)
  | response (ok : Bool) (body : JsonOutcome)
  deriving DecidableEq, Repr

/-- What the function body of one render reads and its handlers capture: the state variables
`isOpen`, `input`, `loading` (lines 14-17) and the `userRole` prop, as they were at that
render. -/
structure Closure where
  isOpen : Bool
  input : String
  loading : Bool
  userRole : String
  deriving DecidableEq, Repr

/-- State of the component.

* `isOpen`, `messages`, `input`, `loading`: the four `useState` cells, as last written by
  their setters;
* `currentUser`: the prop as passed to the last render;
* `rendered`: what the last render read (the floating button carries its `onClick`);
* `form`: the closure of the handlers carried by the form in the document, `none` when there
  is no form. The form is rendered under `isOpen &&` inside `AnimatePresence` (lines 116-117):
  a render with `isOpen` true replaces it, a render with `isOpen` false leaves the one of the
  last open render in place until its exit animation has run;
* `inFlight`: the requests issued by `fetch` that have not settled yet, oldest first. -/
structure ChatState where
  isOpen : Bool
  messages : List ChatMessage
  input : String
  loading : Bool
  currentUser : UserProp
  rendered : Closure
  form : Option Closure
  inFlight : List Request
  deriving DecidableEq, Repr

/-- State after the first render: `useState(false)`, `useState([])`, `useState("")`,
`useState(false)`; the chat is closed, so there is no form. -/
def initialState (userRole : String) (currentUser : UserProp) : ChatState :=
  { isOpen := false, messages := [], input := "", loading := false,
    currentUser := currentUser,
    rendered := { isOpen := false, input := "", loading := false, userRole := userRole },
    form := none, inFlight := [] }

/-! ## Chatbot.jsx: greeting effect (lines 25-39) -/

/-- Line 28: `currentUser?.email ? currentUser.email.split('@')[0] : "there"`. -/
def userName (currentUser : UserProp) : String :=
  match currentUser with
  | UserProp.object user =>
    match user.email with
    | some email => if email = "" then "there" else splitAtHead email
    | none => "there"
  | _ => "there"

/-- Lines 29-35: the greeting template chosen by role, for a display name. -/
def greetingFor (userRole : String) (name : String) : String :=
  if userRole = ROLES.producer then
    "Hello " ++ name ++
      "! How can I assist you with your cultivation, soil health, or harvesting today?"
  else if userRole = ROLES.processor then
    "Hello " ++ name ++ "! Do you have questions regarding batch tracking or processing standards?"
  else
    "Welcome " ++ name ++ "! How can I help you learn about Ayurvedic herbs today?"

/-- Lines 28-35: the greeting for a role and a user. -/
def greeting (userRole : String) (currentUser : UserProp) : String :=
  greetingFor userRole (userName currentUser)

/-- Body of the effect of lines 25-39, run after a render:
`if (isOpen) setMessages([{ sender: "bot", text: greeting }])`, on what that render read. -/
def greetingEffect (s : ChatState) : ChatState :=
  if s.rendered.isOpen then
    { s with
      messages :=
        [{ sender := Sender.bot, text := some (greeting s.rendered.userRole s.currentUser) }] }
  else s

/-- A render of the component with the given props. It reads the state cells, hands its
handlers to the button and, when `isOpen` is true, to a new form; then the greeting effect
runs if one of its dependencies `[isOpen, userRole, currentUser]` (line 39) differs, by
`Object.is`, from its value at the previous render. -/
def rerender (userRole : String) (currentUser : UserProp) (s : ChatState) : ChatState :=
  let c : Closure :=
    { isOpen := s.isOpen, input := s.input, loading := s.loading, userRole := userRole }
  let s1 : ChatState :=
    { s with
      currentUser := currentUser
      rendered := c
      form := if s.isOpen then some c else s.form }
  if s.isOpen = s.rendered.isOpen ∧ userRole = s.rendered.userRole ∧
      objectIs currentUser s.currentUser = true then s1
  else greetingEffect s1

/-! ## Chatbot.jsx: handleSendMessage (lines 45-101) -/

/-- Lines 57-69: endpoint and form data of the request. -/
def buildRequest (userRole : String) (currentInput : String) : Request :=
  let baseUrl := "http://127.0.0.1:8000"
  let endpoint :=
    if userRole = ROLES.producer then baseUrl ++ "/farmer_advice/" else baseUrl ++ "/consumer_chat/"
  let formData := [("query", currentInput)]
  let formData :=
    if userRole = ROLES.producer then formData ++ [("location_name", "India")] else formData
  { method := "POST", url := endpoint, form := formData }

/-- Lines 46-74, the part of `handleSendMessage` that runs inside the submit event, up to the
`await fetch(...)`. The handler of the render with closure `c` reads `input`, `loading` and
`userRole` from `c`; it writes through the setters, `setMessages` with a function of the
current list. -/
def handleSendMessage.submit (c : Closure) (s : ChatState) : ChatState :=
  if jsTrim c.input = "" ∨ c.loading = true then s
  else
    { s with
      messages := s.messages ++ [{ sender := Sender.user, text := some c.input }]
      input := ""
      loading := true
      inFlight := s.inFlight ++ [buildRequest c.userRole c.input] }

/-- Result of running a block: it ends normally, or throws an error with a message; the state
is the one reached at that point. -/
inductive Completion (σ : Type) where
  | normal (state : σ)
  | throws (state : σ) (message : String)
  deriving DecidableEq, Repr

/-- State at the end of a block, however it ended. -/
def Completion.state {σ : Type} : Completion σ → σ
  | Completion.normal s => s
  | Completion.throws s _ => s

/-- Whether a block ended by throwing. -/
def Completion.threw {σ : Type} : Completion σ → Bool
  | Completion.normal _ => false
  | Completion.throws _ _ => true

/-- Semantics of `try { body } catch (error) { handler } finally { fin }`: `fin` always runs,
and an error thrown by `handler` propagates after it. -/
def tryCatchFinally {σ : Type} (body : σ → Completion σ) (handler : String → σ → Completion σ)
    (fin : σ → σ) (s : σ) : Completion σ :=
  match body s with
  | Completion.normal s1 => Completion.normal (fin s1)
  | Completion.throws s1 m =>
    match handler m s1 with
    | Completion.normal s2 => Completion.normal (fin s2)
    | Completion.throws s2 m2 => Completion.throws (fin s2) m2

/-- Lines 71-89, the rest of the `try` block once `fetch` has settled. -/
def tryBlock (net : FetchOutcome) (s : ChatState) : Completion ChatState :=
  match net with
  | FetchOutcome.rejected reason => Completion.throws s reason
  | FetchOutcome.response ok body =>
    if !ok then Completion.throws s "Failed to connect to the AyurTrace AI service."
    else
      match body with
      | JsonOutcome.rejected reason => Completion.throws s reason
      | JsonOutcome.parsed data =>
        if data.status = some "success" then
          Completion.normal
            { s with messages := s.messages ++ [{ sender := Sender.bot, text := data.response }] }
        else Completion.throws s (jsOr data.message "Failed to get a response.")

/-- Lines 90-97, the `catch` block. -/
def catchBlock (message : String) (s : ChatState) : Completion ChatState :=
  Completion.normal
    { s with
      messages := s.messages ++
        [{ sender := Sender.bot,
           text := some ("I'm having trouble connecting right now: " ++ message) }] }

/-- Lines 98-100, the `finally` block. -/
def finallyBlock (s : ChatState) : ChatState :=
  { s with loading := false }

/-- Lines 71-100, the part of `handleSendMessage` that runs when request `i` of `inFlight`
settles with `net`. It reads no state variable, and its updates are functional
(`prev => [...prev, m]`), so they apply to the state current at that time. -/
def handleSendMessage.resume (i : Nat) (net : FetchOutcome) (s : ChatState) :
    Completion ChatState :=
  tryCatchFinally (tryBlock net) catchBlock finallyBlock
    { s with inFlight := s.inFlight.eraseIdx i }

/-- The whole of `handleSendMessage` as created by the render with closure `c`, with nothing
happening while its request is in flight. -/
def handleSendMessage (c : Closure) (s : ChatState) (net : FetchOutcome) :
    Completion ChatState :=
  if jsTrim c.input = "" ∨ c.loading = true then Completion.normal s
  else handleSendMessage.resume s.inFlight.length net (handleSendMessage.submit c s)

/-! ## Chatbot.jsx: the component as a transition system -/

/-- Events the component receives. -/
inductive Event where
  /-- `onChange` of the text field: `setInput(e.target.value)`. -/
  | edit (value : String)
  /-- `onClick` of the floating button: `setIsOpen(!isOpen)`. -/
  | toggle
  /-- `onSubmit` of the form: `handleSendMessage`. -/
  | submit
  /-- Request `i` of `inFlight` settles. -/
  | settle (i : Nat) (net : FetchOutcome)
  /-- The hosting context renders the component with these props. -/
  | refresh (userRole : String) (currentUser : UserProp)
  /-- React renders the component again, with the props it had. -/
  | render
  /-- The exit animation of a closed chat has run: `AnimatePresence` removes the form. -/
  | exitComplete
  deriving DecidableEq, Repr

/-- One event. The text field and the form exist only while a form is in the document, and
run the handlers of the render that created it; the button runs the `onClick` of the last
render. The `disabled={loading}` attributes of the field and of the send button only remove
events, so they are left out: the sequences covered include those they rule out. -/
def step (s : ChatState) : Event → ChatState
  | Event.edit value => if s.form.isSome then { s with input := value } else s
  | Event.toggle => { s with isOpen := !s.rendered.isOpen }
  | Event.submit =>
    match s.form with
    | some c => handleSendMessage.submit c s
    | none => s
  | Event.settle i net =>
    if i < s.inFlight.length then (handleSendMessage.resume i net s).state else s
  | Event.refresh userRole currentUser => rerender userRole currentUser s
  | Event.render => rerender s.rendered.userRole s.currentUser s
  | Event.exitComplete => if s.rendered.isOpen then s else { s with form := none }

/-- A sequence of events, oldest first. -/
def run (s : ChatState) (events : List Event) : ChatState :=
  events.foldl step s

/-- Events that change none of the open flag, the role and the identity, and settle no
request: edits, submissions, re-renders, and renders by the host with the same props. -/
def Event.keepsSession (userRole : String) (currentUser : UserProp) : Event → Bool
  | Event.edit _ => true
  | Event.toggle => false
  | Event.submit => true
  | Event.settle _ _ => false
  | Event.refresh r u => decide (r = userRole) && decide (u = currentUser)
  | Event.render => true
  | Event.exitComplete => true

/-- Whether the event is the settling of a request. -/
def Event.isSettle : Event → Bool
  | Event.settle _ _ => true
  | _ => false

/-- A render by the host whose props differ from the current ones in the role or, by
`Object.is`, in the user, so that the greeting effect runs again. -/
def Event.changesProps (s : ChatState) : Event → Bool
  | Event.refresh userRole currentUser =>
    !(decide (userRole = s.rendered.userRole) && objectIs currentUser s.currentUser)
  | _ => false

/-- Along the events, no submission is handled by a handler that read `loading` as false at
its render while the `loading` cell is already true. -/
def submitsSeeLoading (s : ChatState) : List Event → Bool
  | [] => true
  | e :: es =>
    (match e, s.form with
      | Event.submit, some c => !s.loading || c.loading
      | _, _ => true) &&
    submitsSeeLoading (step s e) es

/-- The invariant of the session: at most one request is in flight, and `loading` is true
exactly when one is. -/
def OneRequest (s : ChatState) : Prop :=
  s.inFlight.length ≤ 1 ∧ (s.loading = true ↔ s.inFlight ≠ [])

/-! ## Chatbot.jsx: readings of the specification compared with the code -/

/-- Display name as the specification words it: the part of the email before `@`, and
`"there"` when the email is absent. -/
def userNameAsStated (currentUser : UserProp) : String :=
  match currentUser with
  | UserProp.object user =>
    match user.email with
    | some email => splitAtHead email
    | none => "there"
  | _ => "there"

/-- Failure reason as the specification words it: the body's `message` field when it is
present, the generic string when it is absent. -/
def failureReasonAsStated (data : JsonBody) : String :=
  match data.message with
  | some m => m
  | none => "Failed to get a response."

/-! ## MapComponent.jsx -/

/-- One element of `result.data`. Coordinates and score are numbers that the component only
copies, so their type `ν` is left open. -/
structure HerbRecord (ν : Type) where
  id : Nat
  name : String
  latitude : ν
  longitude : ν
  verified_species : String
  confidence_score : ν
  deriving DecidableEq, Repr

/-- The fields the load effect reads from the parsed body; `data` is `none` when the body has
no such field (`undefined`) or holds `null`: `herbData.map` throws on both. -/
structure DashboardBody (ν : Type) where
  status : Option String
  data : Option (List (HerbRecord ν))
  deriving DecidableEq, Repr

/-- How the promise chain of lines 15-23 ends: `fetch` rejects, `res.json()` rejects (or
yields `null`, so that reading `result.status` throws), or a body is parsed. -/
inductive LoadOutcome (ν : Type) where
  | fetchRejected (message : String)
  | jsonRejected (message : String)
  | parsed (result : DashboardBody ν)
  deriving DecidableEq, Repr

/-- State of the map: `herbData` (`none` when `setHerbData` was given `undefined` or `null`)
and what was written with `console.error`. -/
structure MapState (ν : Type) where
  herbData : Option (List (HerbRecord ν))
  errors : List (String × String)
  deriving DecidableEq, Repr

/-- State at mount: `useState([])`. -/
def MapState.initial (ν : Type) : MapState ν :=
  { herbData := some [], errors := [] }

/-- Lines 13-24: the load effect, once its request has settled. -/
def loadEffect {ν : Type} (s : MapState ν) : LoadOutcome ν → MapState ν
  | LoadOutcome.fetchRejected err =>
    { s with errors := s.errors ++ [("Error fetching blockchain records:", err)] }
  | LoadOutcome.jsonRejected err =>
    { s with errors := s.errors ++ [("Error fetching blockchain records:", err)] }
  | LoadOutcome.parsed result =>
    if result.status = some "success" then { s with herbData := result.data } else s

/-- A rendered `Marker`: its React key, its `position` and the record shown in its popup. -/
structure Marker (ν : Type) where
  key : Nat
  position : ν × ν
  popup : HerbRecord ν
  deriving DecidableEq, Repr

/-- Lines 32-57: `herbData.map((herb) => <Marker key={herb.id} position={[herb.latitude,
herb.longitude]} ...>)`; `none` when `herbData` is not an array and the render throws. -/
def renderMarkers {ν : Type} (s : MapState ν) : Option (List (Marker ν)) :=
  s.herbData.map (fun herbs =>
    herbs.map (fun herb =>
      { key := herb.id, position := (herb.latitude, herb.longitude), popup := herb }))


/-! ## Lemmas on the two halves of handleSendMessage -/

theorem submit_of_blocked (c : Closure) (s : ChatState)
    (h : jsTrim c.input = "" ∨ c.loading = true) : handleSendMessage.submit c s = s := by
  simp [handleSendMessage.submit, h]

theorem submit_of_accepted (c : Closure) (s : ChatState) (ht : jsTrim c.input ≠ "")
    (hl : c.loading = false) :
    handleSendMessage.submit c s =
      { s with
        messages := s.messages ++ [{ sender := Sender.user, text := some c.input }]
        input := ""
        loading := true
        inFlight := s.inFlight ++ [buildRequest c.userRole c.input] } := by
  simp [handleSendMessage.submit, ht, hl]

/-- Settling a request always ends normally: one bot message is appended, the loading flag is
cleared and the request leaves `inFlight`. -/
theorem resume_eq (i : Nat) (net : FetchOutcome) (s : ChatState) :
    ∃ text, handleSendMessage.resume i net s =
      Completion.normal
        { s with
          messages := s.messages ++ [{ sender := Sender.bot, text := text }]
          loading := false
          inFlight := s.inFlight.eraseIdx i } := by
  rcases net with r | ⟨ok, body⟩
  · exact ⟨_, rfl⟩
  · cases ok
    · exact ⟨_, rfl⟩
    · rcases body with r | data
      · exact ⟨_, rfl⟩
      · by_cases h : data.status = some "success"
        · exact ⟨data.response, by
            simp [handleSendMessage.resume, tryCatchFinally, tryBlock, h, finallyBlock]⟩
        · exact ⟨_, by
            simp [handleSendMessage.resume, tryCatchFinally, tryBlock, h, finallyBlock,
              catchBlock]; rfl⟩

theorem eraseIdx_append_singleton {α : Type} (l : List α) (a : α) :
    (l ++ [a]).eraseIdx l.length = l := by
  induction l with
  | nil => rfl
  | cons b l ih => simp [List.eraseIdx, ih]

theorem run_append (s : ChatState) (es fs : List Event) :
    run s (es ++ fs) = run (run s es) fs := by
  simp [run, List.foldl_append]

theorem run_cons (s : ChatState) (e : Event) (es : List Event) :
    run s (e :: es) = run (step s e) es := rfl

/-! ## Lemmas on renders -/

theorem objectIs_self (u : UserProp) : objectIs u u = true := by
  cases u <;> simp [objectIs]

theorem greetingEffect_fields (s : ChatState) :
    (greetingEffect s).isOpen = s.isOpen ∧ (greetingEffect s).input = s.input ∧
    (greetingEffect s).loading = s.loading ∧ (greetingEffect s).inFlight = s.inFlight ∧
    (greetingEffect s).currentUser = s.currentUser ∧
    (greetingEffect s).rendered = s.rendered ∧ (greetingEffect s).form = s.form := by
  unfold greetingEffect
  split <;> simp

/-- A render writes none of `isOpen`, `input`, `loading` and `inFlight`; it records the props
and what it read. -/
theorem rerender_fields (r : String) (u : UserProp) (s : ChatState) :
    (rerender r u s).isOpen = s.isOpen ∧ (rerender r u s).input = s.input ∧
    (rerender r u s).loading = s.loading ∧ (rerender r u s).inFlight = s.inFlight ∧
    (rerender r u s).currentUser = u ∧
    (rerender r u s).rendered =
      { isOpen := s.isOpen, input := s.input, loading := s.loading, userRole := r } ∧
    (rerender r u s).form =
      if s.isOpen then
        some { isOpen := s.isOpen, input := s.input, loading := s.loading, userRole := r }
      else s.form := by
  unfold rerender
  simp only []
  split
  · exact ⟨rfl, rfl, rfl, rfl, rfl, rfl, rfl⟩
  · obtain ⟨h1, h2, h3, h4, h5, h6, h7⟩ := greetingEffect_fields
      { s with
        currentUser := u
        rendered := { isOpen := s.isOpen, input := s.input, loading := s.loading, userRole := r }
        form := if s.isOpen then
            some { isOpen := s.isOpen, input := s.input, loading := s.loading, userRole := r }
          else s.form }
    exact ⟨h1, h2, h3, h4, h5, h6, h7⟩

/-- A render with the props of the last one, in a state whose open flag that render has read,
runs no effect: the messages stay. -/
theorem rerender_same_messages (r : String) (u : UserProp) (s : ChatState)
    (ho : s.isOpen = s.rendered.isOpen) (hr : r = s.rendered.userRole)
    (hu : objectIs u s.currentUser = true) : (rerender r u s).messages = s.messages := by
  unfold rerender
  simp only []
  rw [if_pos ⟨ho, hr, hu⟩]

/-- A render in which the open flag, the role or the user differs from the last one, with the
chat open, sets the messages to the greeting. -/
theorem rerender_changed_messages (r : String) (u : UserProp) (s : ChatState)
    (ho : s.isOpen = true)
    (hd : ¬ (s.isOpen = s.rendered.isOpen ∧ r = s.rendered.userRole ∧
      objectIs u s.currentUser = true)) :
    (rerender r u s).messages = [{ sender := Sender.bot, text := some (greeting r u) }] := by
  unfold rerender
  simp only []
  rw [if_neg hd]
  simp [greetingEffect, ho]

/-! ## Lemmas on the transition system -/

/-- While the loading flag is set and no toggle is pending, an event that keeps the session
and is not a submission through a handler that read `loading` as false leaves the messages,
the requests in flight, the role and the user as they are. -/
theorem step_keepsSession (s : ChatState) (e : Event) (hl : s.loading = true)
    (ho : s.rendered.isOpen = s.isOpen)
    (he : e.keepsSession s.rendered.userRole s.currentUser = true)
    (hc : ∀ c, e = Event.submit → s.form = some c → c.loading = true) :
    (step s e).loading = true ∧ (step s e).rendered.isOpen = (step s e).isOpen ∧
    (step s e).messages = s.messages ∧ (step s e).inFlight = s.inFlight ∧
    (step s e).rendered.userRole = s.rendered.userRole ∧
    (step s e).currentUser = s.currentUser := by
  have hrender : ∀ r u, r = s.rendered.userRole → u = s.currentUser →
      (rerender r u s).loading = true ∧
      (rerender r u s).rendered.isOpen = (rerender r u s).isOpen ∧
      (rerender r u s).messages = s.messages ∧ (rerender r u s).inFlight = s.inFlight ∧
      (rerender r u s).rendered.userRole = s.rendered.userRole ∧
      (rerender r u s).currentUser = s.currentUser := by
    intro r u hr hu
    obtain ⟨h1, _, h3, h4, h5, h6, _⟩ := rerender_fields r u s
    have hm := rerender_same_messages r u s ho.symm hr (by rw [hu]; exact objectIs_self _)
    exact ⟨h3.trans hl, by rw [h6, h1], hm, h4, by rw [h6]; exact hr, h5.trans hu⟩
  cases e with
  | edit v =>
    simp only [step]
    split <;> exact ⟨hl, ho, rfl, rfl, rfl, rfl⟩
  | toggle => simp [Event.keepsSession] at he
  | submit =>
    simp only [step]
    split
    · next c hf =>
      rw [submit_of_blocked c s (Or.inr (hc c rfl hf))]
      exact ⟨hl, ho, rfl, rfl, rfl, rfl⟩
    · exact ⟨hl, ho, rfl, rfl, rfl, rfl⟩
  | settle i net => simp [Event.keepsSession] at he
  | refresh r u =>
    simp only [Event.keepsSession, Bool.and_eq_true, decide_eq_true_eq] at he
    exact hrender r u he.1 he.2
  | render => exact hrender _ _ rfl rfl
  | exitComplete =>
    simp only [step]
    split <;> exact ⟨hl, ho, rfl, rfl, rfl, rfl⟩

theorem run_keepsSession (es : List Event) (s : ChatState) (hl : s.loading = true)
    (ho : s.rendered.isOpen = s.isOpen)
    (hes : ∀ e ∈ es, e.keepsSession s.rendered.userRole s.currentUser = true)
    (hc : submitsSeeLoading s es = true) :
    (run s es).messages = s.messages ∧ (run s es).inFlight = s.inFlight := by
  induction es generalizing s with
  | nil => exact ⟨rfl, rfl⟩
  | cons e es ih =>
    simp only [submitsSeeLoading, Bool.and_eq_true] at hc
    obtain ⟨h1, h2, h3, h4, h5, h6⟩ := step_keepsSession s e hl ho
      (hes e (List.mem_cons_self _ _)) (by
        intro c he hf
        subst he
        have := hc.1
        simp only [hf, hl, Bool.not_true, Bool.false_or] at this
        exact this)
    obtain ⟨k1, k2⟩ := ih (step s e) h1 h2 (by
      intro e1 he1
      rw [h5, h6]
      exact hes e1 (List.mem_cons_of_mem _ he1)) hc.2
    exact ⟨by rw [run_cons, k1, h3], by rw [run_cons, k2, h4]⟩

/-- State reached when an accepted submission is followed by events that keep the session,
none of them a submission through a handler that read `loading` as false, and then by the
settling of its request. -/
theorem run_submit_settle (s : ChatState) (c : Closure) (es : List Event) (net : FetchOutcome)
    (hf : s.form = some c) (ho : s.rendered.isOpen = s.isOpen)
    (ht : jsTrim c.input ≠ "") (hl : c.loading = false)
    (hes : ∀ e ∈ es, e.keepsSession s.rendered.userRole s.currentUser = true)
    (hc : submitsSeeLoading (step s Event.submit) es = true) :
    ∃ s2, s2.messages = s.messages ++ [{ sender := Sender.user, text := some c.input }] ∧
      run s ([Event.submit] ++ es ++ [Event.settle s.inFlight.length net]) =
        (handleSendMessage.resume s.inFlight.length net s2).state := by
  have hs := submit_of_accepted c s ht hl
  have h1 : step s Event.submit = handleSendMessage.submit c s := by simp [step, hf]
  have h2 : run s [Event.submit] = handleSendMessage.submit c s := h1
  rw [h1] at hc
  obtain ⟨k1, k2⟩ := run_keepsSession es (handleSendMessage.submit c s) (by rw [hs])
    (by rw [hs]; exact ho) (by rw [hs]; exact hes) hc
  refine ⟨run s ([Event.submit] ++ es), ?_, ?_⟩
  · rw [run_append, h2, k1, hs]
  · have hlen : s.inFlight.length < (run s ([Event.submit] ++ es)).inFlight.length := by
      rw [run_append, h2, k2, hs]
      simp
    rw [run_append]
    show step (run s ([Event.submit] ++ es)) (Event.settle s.inFlight.length net) = _
    simp only [step, if_pos hlen]

/-- While the loading flag is set, an event other than a settling leaves it set. -/
theorem step_not_settle (s : ChatState) (e : Event) (hl : s.loading = true)
    (he : e.isSettle = false) : (step s e).loading = true := by
  cases e with
  | edit v =>
    simp only [step]
    split <;> exact hl
  | toggle => exact hl
  | submit =>
    simp only [step, handleSendMessage.submit]
    split
    · split
      · exact hl
      · rfl
    · exact hl
  | settle i net => simp [Event.isSettle] at he
  | refresh r u => exact (rerender_fields r u s).2.2.1.trans hl
  | render => exact (rerender_fields _ _ s).2.2.1.trans hl
  | exitComplete =>
    simp only [step]
    split <;> exact hl

theorem run_not_settle (es : List Event) (s : ChatState) (hl : s.loading = true)
    (hes : ∀ e ∈ es, e.isSettle = false) : (run s es).loading = true := by
  induction es generalizing s with
  | nil => exact hl
  | cons e es ih =>
    exact ih (step s e) (step_not_settle s e hl (hes e (List.mem_cons_self _ _)))
      (fun e1 he1 => hes e1 (List.mem_cons_of_mem _ he1))

/-- The invariant is kept by every event, provided a submission is not handled by a handler
that read `loading` as false while the cell is true. -/
theorem step_oneRequest (s : ChatState) (e : Event) (h : OneRequest s)
    (hc : ∀ c, e = Event.submit → s.form = some c → s.loading = true → c.loading = true) :
    OneRequest (step s e) := by
  obtain ⟨hlen, hiff⟩ := h
  cases e with
  | edit v =>
    simp only [step]
    split <;> exact ⟨hlen, hiff⟩
  | toggle => exact ⟨hlen, hiff⟩
  | submit =>
    simp only [step]
    split
    · next c hf =>
      by_cases hg : jsTrim c.input = "" ∨ c.loading = true
      · rw [submit_of_blocked c s hg]
        exact ⟨hlen, hiff⟩
      · have ht : jsTrim c.input ≠ "" := fun h => hg (Or.inl h)
        have hcl : c.loading = false := by
          cases hb : c.loading
          · rfl
          · exact absurd (Or.inr hb) hg
        have hl : s.loading = false := by
          cases hb : s.loading
          · rfl
          · have := hc c rfl hf hb
            rw [hcl] at this
            exact Bool.noConfusion this
        have he : s.inFlight = [] := by
          by_contra hne
          have := hiff.mpr hne
          rw [hl] at this
          exact Bool.noConfusion this
        rw [submit_of_accepted c s ht hcl]
        simp [OneRequest, he]
    · exact ⟨hlen, hiff⟩
  | settle i net =>
    by_cases hi : i < s.inFlight.length
    · obtain ⟨text, ht⟩ := resume_eq i net s
      simp only [step, hi, if_true, ht, Completion.state, OneRequest]
      have h0 : s.inFlight.eraseIdx i = [] := by
        apply List.eq_nil_of_length_eq_zero
        rw [List.length_eraseIdx, if_pos hi]
        omega
      simp [h0]
    · simp only [step, hi, if_false]
      exact ⟨hlen, hiff⟩
  | refresh r u =>
    obtain ⟨_, _, h3, h4, _⟩ := rerender_fields r u s
    simp only [step, OneRequest, h3, h4]
    exact ⟨hlen, hiff⟩
  | render =>
    obtain ⟨_, _, h3, h4, _⟩ := rerender_fields s.rendered.userRole s.currentUser s
    simp only [step, OneRequest, h3, h4]
    exact ⟨hlen, hiff⟩
  | exitComplete =>
    simp only [step]
    split <;> exact ⟨hlen, hiff⟩

theorem run_oneRequest (es : List Event) (s : ChatState) (h : OneRequest s)
    (hc : submitsSeeLoading s es = true) : OneRequest (run s es) := by
  induction es generalizing s with
  | nil => exact h
  | cons e es ih =>
    simp only [submitsSeeLoading, Bool.and_eq_true] at hc
    refine ih (step s e) (step_oneRequest s e h ?_) hc.2
    intro c he hf hl
    subst he
    have := hc.1
    simp only [hf, hl, Bool.not_true, Bool.false_or] at this
    exact this

/-- In an open chat with no request pending, after a render, an edit to a non-blank `v` and
another render, the submit event is accepted: the user message `v` is appended and one
request for `v` is issued. -/
theorem submit_after_render (a : ChatState) (v : String) (ho : a.isOpen = true)
    (hl : a.loading = false) (hv : jsTrim v ≠ "") :
    (run a [Event.render, Event.edit v, Event.render, Event.submit]).messages =
      (run a [Event.render, Event.edit v, Event.render]).messages ++
        [{ sender := Sender.user, text := some v }] ∧
    (run a [Event.render, Event.edit v, Event.render, Event.submit]).inFlight =
      (run a [Event.render, Event.edit v, Event.render]).inFlight ++
        [buildRequest (run a [Event.render, Event.edit v, Event.render]).rendered.userRole v] ∧
    (run a [Event.render, Event.edit v, Event.render, Event.submit]).loading = true := by
  obtain ⟨f1, _, f3, _, _, _, f7⟩ := rerender_fields a.rendered.userRole a.currentUser a
  have h1 : step a Event.render = rerender a.rendered.userRole a.currentUser a := rfl
  have hform : (step a Event.render).form.isSome = true := by
    rw [h1, f7, if_pos ho]; rfl
  have h2 : step (step a Event.render) (Event.edit v) =
      { step a Event.render with input := v } := by
    show (if (step a Event.render).form.isSome = true then
      { step a Event.render with input := v } else step a Event.render) = _
    rw [if_pos hform]
  have ho2 : (step (step a Event.render) (Event.edit v)).isOpen = true := by
    rw [h2]; exact f1.trans ho
  have hl2 : (step (step a Event.render) (Event.edit v)).loading = false := by
    rw [h2]; exact f3.trans hl
  have hi2 : (step (step a Event.render) (Event.edit v)).input = v := by rw [h2]
  obtain ⟨_, _, _, _, _, g6, g7⟩ := rerender_fields
    (step (step a Event.render) (Event.edit v)).rendered.userRole
    (step (step a Event.render) (Event.edit v)).currentUser
    (step (step a Event.render) (Event.edit v))
  have h3 : run a [Event.render, Event.edit v, Event.render] =
      rerender (step (step a Event.render) (Event.edit v)).rendered.userRole
        (step (step a Event.render) (Event.edit v)).currentUser
        (step (step a Event.render) (Event.edit v)) := rfl
  have hf3 : (run a [Event.render, Event.edit v, Event.render]).form =
      some { isOpen := true, input := v, loading := false,
             userRole := (run a [Event.render, Event.edit v, Event.render]).rendered.userRole } := by
    rw [h3, g7, g6, if_pos ho2, ho2, hl2, hi2]
  have h4 : run a [Event.render, Event.edit v, Event.render, Event.submit] =
      step (run a [Event.render, Event.edit v, Event.render]) Event.submit := rfl
  rw [h4]
  simp only [step, hf3]
  rw [submit_of_accepted _ _ hv rfl]
  exact ⟨rfl, rfl, rfl⟩

/-! ## Claims on the chat widget -/

/-- C2: when the input read by `handleSendMessage` is empty after trimming, or its `loading`
is true, `handleSendMessage` is a no-op: the submit event leaves the whole state (messages,
input, loading flag, requests in flight) as it is, so no user message is appended and no
request is issued, and the handler as a whole returns normally with the state untouched,
whatever the network would have answered. -/
theorem handleSendMessage_noop (s : ChatState) (c : Closure) (hf : s.form = some c)
    (h : jsTrim c.input = "" ∨ c.loading = true) :
    step s Event.submit = s ∧
    (step s Event.submit).messages = s.messages ∧
    (step s Event.submit).input = s.input ∧
    (step s Event.submit).loading = s.loading ∧
    (step s Event.submit).inFlight = s.inFlight ∧
    ∀ net, handleSendMessage c s net = Completion.normal s := by
  have hs : step s Event.submit = s := by
    simp only [step, hf]
    exact submit_of_blocked c s h
  refine ⟨hs, by rw [hs], by rw [hs], by rw [hs], by rw [hs], ?_⟩
  intro net
  simp [handleSendMessage, h]

theorem handleSendMessage_noop_witness :
    (step (run (initialState "Customer" UserProp.undefined)
        [Event.toggle, Event.render, Event.edit " \t ", Event.render]) Event.submit =
      run (initialState "Customer" UserProp.undefined)
        [Event.toggle, Event.render, Event.edit " \t ", Event.render]) ∧
    (step (run (initialState "Customer" UserProp.undefined)
        [Event.toggle, Event.render, Event.edit "tulsi", Event.render, Event.submit,
         Event.render, Event.edit "neem", Event.render]) Event.submit =
      run (initialState "Customer" UserProp.undefined)
        [Event.toggle, Event.render, Event.edit "tulsi", Event.render, Event.submit,
         Event.render, Event.edit "neem", Event.render]) :=
  ⟨(handleSendMessage_noop
      (run (initialState "Customer" UserProp.undefined)
        [Event.toggle, Event.render, Event.edit " \t ", Event.render])
      { isOpen := true, input := " \t ", loading := false, userRole := "Customer" }
      (by decide) (Or.inl (by decide))).1,
   (handleSendMessage_noop
      (run (initialState "Customer" UserProp.undefined)
        [Event.toggle, Event.render, Event.edit "tulsi", Event.render, Event.submit,
         Event.render, Event.edit "neem", Event.render])
      { isOpen := true, input := "neem", loading := true, userRole := "Customer" }
      (by decide) (Or.inr rfl)).1⟩

/-- C3: an accepted submission (the input read by the handler is non-empty after trimming and
its `loading` is false) issues exactly one request, fixed by the role: for role "Producer" a
POST to `/farmer_advice/` with form fields `query` = the input and `location_name` = "India";
for any other role a POST to `/consumer_chat/` with the single form field `query` = the
input. -/
theorem request_by_role (s : ChatState) (c : Closure) (hf : s.form = some c)
    (ht : jsTrim c.input ≠ "") (hl : c.loading = false) :
    (c.userRole = "Producer" →
      (step s Event.submit).inFlight = s.inFlight ++
        [{ method := "POST", url := "http://127.0.0.1:8000/farmer_advice/",
           form := [("query", c.input), ("location_name", "India")] }]) ∧
    (c.userRole ≠ "Producer" →
      (step s Event.submit).inFlight = s.inFlight ++
        [{ method := "POST", url := "http://127.0.0.1:8000/consumer_chat/",
           form := [("query", c.input)] }]) ∧
    (step s Event.submit).inFlight.length = s.inFlight.length + 1 := by
  have hs : step s Event.submit = handleSendMessage.submit c s := by
    simp only [step, hf]
  rw [hs, submit_of_accepted c s ht hl]
  refine ⟨?_, ?_, by simp⟩
  · intro hr
    simp only [buildRequest, ROLES.producer, hr, if_true]
    rfl
  · intro hr
    simp only [buildRequest, ROLES.producer, hr, if_false]
    rfl

theorem request_by_role_witness :
    (step (run (initialState "Producer" UserProp.undefined)
        [Event.toggle, Event.render, Event.edit "neem", Event.render]) Event.submit).inFlight =
      [{ method := "POST", url := "http://127.0.0.1:8000/farmer_advice/",
         form := [("query", "neem"), ("location_name", "India")] }] ∧
    (step (run (initialState "Customer" UserProp.undefined)
        [Event.toggle, Event.render, Event.edit "neem", Event.render]) Event.submit).inFlight =
      [{ method := "POST", url := "http://127.0.0.1:8000/consumer_chat/",
         form := [("query", "neem")] }] :=
  ⟨(request_by_role
      (run (initialState "Producer" UserProp.undefined)
        [Event.toggle, Event.render, Event.edit "neem", Event.render])
      { isOpen := true, input := "neem", loading := false, userRole := "Producer" }
      (by decide) (by decide) rfl).1 rfl,
   (request_by_role
      (run (initialState "Customer" UserProp.undefined)
        [Event.toggle, Event.render, Event.edit "neem", Event.render])
      { isOpen := true, input := "neem", loading := false, userRole := "Customer" }
      (by decide) (by decide) rfl).2.1 (by decide)⟩

/-- C1: for a state whose handler reads `loading = false` and an input `t` whose trim is
non-empty, if the open flag, the role and the identity stay as they are while the request is
in flight (only edits, re-renders, renders with the same props and further submit events
occur, the latter through handlers that have read the loading flag as set) and the backend
answers with HTTP success and a body with `status` "success" and `response` `X`, then the
message list is the previous list followed by exactly the user message with text `t` and the
bot message with text `X`: the count grows by 2 and the last message is the bot one. The
handler run without any event in between gives the same list and returns normally. -/
theorem success_appends_user_then_bot (s : ChatState) (c : Closure) (t X : String)
    (data : JsonBody) (es : List Event) (hf : s.form = some c)
    (ho : s.rendered.isOpen = s.isOpen) (hl : c.loading = false) (hi : c.input = t)
    (ht : jsTrim t ≠ "")
    (hes : ∀ e ∈ es, e.keepsSession s.rendered.userRole s.currentUser = true)
    (hc : submitsSeeLoading (step s Event.submit) es = true)
    (hstatus : data.status = some "success") (hresp : data.response = some X) :
    (run s ([Event.submit] ++ es ++
        [Event.settle s.inFlight.length
          (FetchOutcome.response true (JsonOutcome.parsed data))])).messages =
      s.messages ++ [{ sender := Sender.user, text := some t },
                     { sender := Sender.bot, text := some X }] ∧
    (run s ([Event.submit] ++ es ++
        [Event.settle s.inFlight.length
          (FetchOutcome.response true (JsonOutcome.parsed data))])).messages.length =
      s.messages.length + 2 ∧
    (run s ([Event.submit] ++ es ++
        [Event.settle s.inFlight.length
          (FetchOutcome.response true (JsonOutcome.parsed data))])).messages.getLast? =
      some { sender := Sender.bot, text := some X } ∧
    handleSendMessage c s (FetchOutcome.response true (JsonOutcome.parsed data)) =
      Completion.normal
        { s with
          messages := s.messages ++ [{ sender := Sender.user, text := some t },
                                     { sender := Sender.bot, text := some X }]
          input := ""
          loading := false } := by
  subst hi
  obtain ⟨s2, hs2, hv⟩ := run_submit_settle s c es
    (FetchOutcome.response true (JsonOutcome.parsed data)) hf ho ht hl hes hc
  have hs := submit_of_accepted c s ht hl
  have hm : (run s ([Event.submit] ++ es ++
        [Event.settle s.inFlight.length
          (FetchOutcome.response true (JsonOutcome.parsed data))])).messages =
      s.messages ++ [{ sender := Sender.user, text := some c.input },
                     { sender := Sender.bot, text := some X }] := by
    rw [hv]
    simp [handleSendMessage.resume, tryCatchFinally, tryBlock, hstatus, hresp, finallyBlock,
      Completion.state, hs2]
  refine ⟨hm, by rw [hm]; simp, by rw [hm]; simp, ?_⟩
  have hg : ¬ (jsTrim c.input = "" ∨ c.loading = true) := by simp [ht, hl]
  simp only [handleSendMessage, hg, if_false]
  rw [hs]
  simp [handleSendMessage.resume, tryCatchFinally, tryBlock, hstatus, hresp, finallyBlock,
    eraseIdx_append_singleton]

theorem success_appends_user_then_bot_witness :
    (run (run (initialState "Customer" UserProp.undefined)
          [Event.toggle, Event.render, Event.edit "What is tulsi?", Event.render])
        ([Event.submit] ++
          [Event.render, Event.edit "and neem?", Event.submit, Event.render] ++
          [Event.settle 0 (FetchOutcome.response true (JsonOutcome.parsed
            { status := some "success", response := some "Holy basil.", message := none }))])
      ).messages =
      (run (initialState "Customer" UserProp.undefined)
          [Event.toggle, Event.render, Event.edit "What is tulsi?", Event.render]).messages ++
        [{ sender := Sender.user, text := some "What is tulsi?" },
         { sender := Sender.bot, text := some "Holy basil." }] :=
  (success_appends_user_then_bot
    (run (initialState "Customer" UserProp.undefined)
      [Event.toggle, Event.render, Event.edit "What is tulsi?", Event.render])
    { isOpen := true, input := "What is tulsi?", loading := false, userRole := "Customer" }
    "What is tulsi?" "Holy basil."
    { status := some "success", response := some "Holy basil.", message := none }
    [Event.render, Event.edit "and neem?", Event.submit, Event.render]
    (by decide) (by decide) rfl rfl (by decide) (by decide) (by decide) rfl rfl).1

/-- C4: for an accepted submission whose request fails at transport level (fetch rejects with
an error of message `r`) or returns a non-success HTTP status (then `r` is "Failed to connect to
the AyurTrace AI service."), `handleSendMessage` returns normally and the message list is the
previous one followed by the user message and exactly one bot message with text "I'm having
trouble connecting right now: " followed by `r`. The same holds with session-keeping events
between submission and failure, and at whatever state the failure arrives the handler ends
normally having appended exactly that one bot message. -/
theorem failure_appends_connectivity_message (s : ChatState) (c : Closure) (net : FetchOutcome)
    (r : String) (es : List Event) (hf : s.form = some c)
    (ho : s.rendered.isOpen = s.isOpen) (ht : jsTrim c.input ≠ "") (hl : c.loading = false)
    (hes : ∀ e ∈ es, e.keepsSession s.rendered.userRole s.currentUser = true)
    (hc : submitsSeeLoading (step s Event.submit) es = true)
    (hnet : net = FetchOutcome.rejected r ∨
      ((∃ body, net = FetchOutcome.response false body) ∧
        r = "Failed to connect to the AyurTrace AI service.")) :
    handleSendMessage c s net =
      Completion.normal
        { s with
          messages := s.messages ++
            [{ sender := Sender.user, text := some c.input },
             { sender := Sender.bot,
               text := some ("I'm having trouble connecting right now: " ++ r) }]
          input := ""
          loading := false } ∧
    (handleSendMessage c s net).threw = false ∧
    (run s ([Event.submit] ++ es ++ [Event.settle s.inFlight.length net])).messages =
      s.messages ++
        [{ sender := Sender.user, text := some c.input },
         { sender := Sender.bot,
           text := some ("I'm having trouble connecting right now: " ++ r) }] ∧
    ∀ (s2 : ChatState) (i : Nat),
      handleSendMessage.resume i net s2 =
        Completion.normal
          { s2 with
            messages := s2.messages ++
              [{ sender := Sender.bot,
                 text := some ("I'm having trouble connecting right now: " ++ r) }]
            loading := false
            inFlight := s2.inFlight.eraseIdx i } := by
  have hres : ∀ (s2 : ChatState) (i : Nat),
      handleSendMessage.resume i net s2 =
        Completion.normal
          { s2 with
            messages := s2.messages ++
              [{ sender := Sender.bot,
                 text := some ("I'm having trouble connecting right now: " ++ r) }]
            loading := false
            inFlight := s2.inFlight.eraseIdx i } := by
    intro s2 i
    rcases hnet with h | ⟨⟨body, h⟩, hr⟩
    · subst h; rfl
    · subst h hr; rfl
  have hs := submit_of_accepted c s ht hl
  have hg : ¬ (jsTrim c.input = "" ∨ c.loading = true) := by simp [ht, hl]
  have hfull : handleSendMessage c s net =
      Completion.normal
        { s with
          messages := s.messages ++
            [{ sender := Sender.user, text := some c.input },
             { sender := Sender.bot,
               text := some ("I'm having trouble connecting right now: " ++ r) }]
          input := ""
          loading := false } := by
    simp only [handleSendMessage, hg, if_false]
    rw [hres, hs]
    simp [eraseIdx_append_singleton]
  refine ⟨hfull, by rw [hfull]; rfl, ?_, hres⟩
  obtain ⟨s2, hs2, hv⟩ := run_submit_settle s c es net hf ho ht hl hes hc
  rw [hv, hres]
  simp [Completion.state, hs2]

theorem failure_appends_connectivity_message_witness :
    (run (run (initialState "Producer" UserProp.null)
          [Event.toggle, Event.render, Event.edit "soil?", Event.render])
        ([Event.submit] ++ [Event.render, Event.submit] ++
          [Event.settle 0 (FetchOutcome.rejected "Failed to fetch")])).messages =
      (run (initialState "Producer" UserProp.null)
          [Event.toggle, Event.render, Event.edit "soil?", Event.render]).messages ++
        [{ sender := Sender.user, text := some "soil?" },
         { sender := Sender.bot,
           text := some ("I'm having trouble connecting right now: " ++ "Failed to fetch") }] :=
  (failure_appends_connectivity_message
    (run (initialState "Producer" UserProp.null)
      [Event.toggle, Event.render, Event.edit "soil?", Event.render])
    { isOpen := true, input := "soil?", loading := false, userRole := "Producer" }
    (FetchOutcome.rejected "Failed to fetch") "Failed to fetch" [Event.render, Event.submit]
    (by decide) (by decide) (by decide) rfl (by decide) (by decide) (Or.inl rfl)).2.2.1

/-- C5, as amended: for an accepted submission whose request returns HTTP success with a body
whose `status` is not "success", exactly one bot message is appended after the user message;
its text is "I'm having trouble connecting right now: " followed by the body's `message` field
when that field is present and not the empty string, and followed by "Failed to get a
response." when the field is absent or is the empty string. -/
theorem failure_payload_message (s : ChatState) (c : Closure) (data : JsonBody)
    (reason : String) (es : List Event) (hf : s.form = some c)
    (ho : s.rendered.isOpen = s.isOpen) (ht : jsTrim c.input ≠ "") (hl : c.loading = false)
    (hes : ∀ e ∈ es, e.keepsSession s.rendered.userRole s.currentUser = true)
    (hc : submitsSeeLoading (step s Event.submit) es = true)
    (hstatus : data.status ≠ some "success")
    (hreason : (data.message = some reason ∧ reason ≠ "") ∨
      ((data.message = none ∨ data.message = some "") ∧
        reason = "Failed to get a response.")) :
    handleSendMessage c s (FetchOutcome.response true (JsonOutcome.parsed data)) =
      Completion.normal
        { s with
          messages := s.messages ++
            [{ sender := Sender.user, text := some c.input },
             { sender := Sender.bot,
               text := some ("I'm having trouble connecting right now: " ++ reason) }]
          input := ""
          loading := false } ∧
    (run s ([Event.submit] ++ es ++
        [Event.settle s.inFlight.length
          (FetchOutcome.response true (JsonOutcome.parsed data))])).messages =
      s.messages ++
        [{ sender := Sender.user, text := some c.input },
         { sender := Sender.bot,
           text := some ("I'm having trouble connecting right now: " ++ reason) }] := by
  have hs := submit_of_accepted c s ht hl
  have hg : ¬ (jsTrim c.input = "" ∨ c.loading = true) := by simp [ht, hl]
  have hj : jsOr data.message "Failed to get a response." = reason := by
    rcases hreason with ⟨hm, hne⟩ | ⟨hm | hm, hr⟩
    · simp [jsOr, hm, hne]
    · simp [jsOr, hm, hr]
    · simp [jsOr, hm, hr]
  constructor
  · simp only [handleSendMessage, hg, if_false]
    rw [hs]
    simp [handleSendMessage.resume, tryCatchFinally, tryBlock, hstatus, catchBlock,
      finallyBlock, eraseIdx_append_singleton, hj]
  · obtain ⟨s2, hs2, hv⟩ := run_submit_settle s c es
      (FetchOutcome.response true (JsonOutcome.parsed data)) hf ho ht hl hes hc
    rw [hv]
    simp [handleSendMessage.resume, tryCatchFinally, tryBlock, hstatus, catchBlock,
      finallyBlock, Completion.state, hj, hs2]

theorem failure_payload_message_witness :
    (run (run (initialState "Customer" UserProp.undefined)
          [Event.toggle, Event.render, Event.edit "hi", Event.render])
        ([Event.submit] ++ [Event.render] ++
          [Event.settle 0 (FetchOutcome.response true (JsonOutcome.parsed
            { status := some "error", response := none, message := some "Model offline" }))])
      ).messages =
      (run (initialState "Customer" UserProp.undefined)
          [Event.toggle, Event.render, Event.edit "hi", Event.render]).messages ++
        [{ sender := Sender.user, text := some "hi" },
         { sender := Sender.bot,
           text := some ("I'm having trouble connecting right now: " ++ "Model offline") }] :=
  (failure_payload_message
    (run (initialState "Customer" UserProp.undefined)
      [Event.toggle, Event.render, Event.edit "hi", Event.render])
    { isOpen := true, input := "hi", loading := false, userRole := "Customer" }
    { status := some "error", response := none, message := some "Model offline" }
    "Model offline" [Event.render] (by decide) (by decide) (by decide) rfl (by decide)
    (by decide) (by decide) (Or.inl ⟨rfl, by decide⟩)).2

/-- C5, as stated, fails: open the chat, type "hi" and submit; the backend answers with HTTP
success and the body `status` "error", `message` "". The message field is present, yet the bot
message carries the generic string "Failed to get a response." and not the field. -/
theorem failure_payload_message_counterexample :
    (run (initialState "Customer" UserProp.undefined)
        [Event.toggle, Event.render, Event.edit "hi", Event.render, Event.submit, Event.render,
         Event.settle 0 (FetchOutcome.response true (JsonOutcome.parsed
          { status := some "error", response := none, message := some "" }))]).messages =
      [{ sender := Sender.bot,
         text := some "Welcome there! How can I help you learn about Ayurvedic herbs today?" },
       { sender := Sender.user, text := some "hi" },
       { sender := Sender.bot,
         text := some "I'm having trouble connecting right now: Failed to get a response." }] ∧
    (run (initialState "Customer" UserProp.undefined)
        [Event.toggle, Event.render, Event.edit "hi", Event.render, Event.submit, Event.render,
         Event.settle 0 (FetchOutcome.response true (JsonOutcome.parsed
          { status := some "error", response := none, message := some "" }))]).messages ≠
      [{ sender := Sender.bot,
         text := some "Welcome there! How can I help you learn about Ayurvedic herbs today?" },
       { sender := Sender.user, text := some "hi" },
       { sender := Sender.bot,
         text := some ("I'm having trouble connecting right now: " ++
           failureReasonAsStated
             { status := some "error", response := none, message := some "" }) }] := by
  constructor
  · decide
  · decide

/-- C9, as amended: in every state reachable from the initial state (closed, no messages,
empty input, `loading = false`, nothing in flight) by a sequence of edits, toggles,
submissions, request completions and renders in which no submission is handled by a handler
whose render read `loading` as false while the loading flag is already true (the component has
been rendered again between an accepted submission and the next submit event), at most one
request is in flight and `loading` is true if and only if a request is in flight. -/
theorem at_most_one_request_in_flight (userRole : String) (currentUser : UserProp)
    (es : List Event)
    (hes : submitsSeeLoading (initialState userRole currentUser) es = true) :
    (run (initialState userRole currentUser) es).inFlight.length ≤ 1 ∧
    ((run (initialState userRole currentUser) es).loading = true ↔
      (run (initialState userRole currentUser) es).inFlight ≠ []) :=
  run_oneRequest es (initialState userRole currentUser)
    ⟨by simp [initialState], by simp [initialState]⟩ hes

theorem at_most_one_request_in_flight_witness :
    (run (initialState "Customer" UserProp.undefined)
        [Event.toggle, Event.render, Event.edit "hi", Event.render, Event.submit, Event.render,
         Event.edit "again", Event.submit]).inFlight.length ≤ 1 :=
  (at_most_one_request_in_flight "Customer" UserProp.undefined
    [Event.toggle, Event.render, Event.edit "hi", Event.render, Event.submit, Event.render,
     Event.edit "again", Event.submit] (by decide)).1

/-- C9, as stated, fails: open the chat, type "hi", and let two submit events reach the form
before the component is rendered again. Both run the handler of the same render, which read
`loading` as false, so both pass the guard of line 47 and two requests are in flight. -/
theorem at_most_one_request_in_flight_counterexample :
    (run (initialState "Customer" UserProp.undefined)
        [Event.toggle, Event.render, Event.edit "hi", Event.render, Event.submit,
         Event.submit]).inFlight =
      [{ method := "POST", url := "http://127.0.0.1:8000/consumer_chat/",
         form := [("query", "hi")] },
       { method := "POST", url := "http://127.0.0.1:8000/consumer_chat/",
         form := [("query", "hi")] }] ∧
    ¬ ((run (initialState "Customer" UserProp.undefined)
        [Event.toggle, Event.render, Event.edit "hi", Event.render, Event.submit,
         Event.submit]).inFlight.length ≤ 1) := by
  constructor
  · decide
  · decide

/-- C6: for an accepted submission and every outcome `net` of its request (transport failure,
non-success HTTP status, unparsable body, failure payload, success payload), `loading` is true
after the submit event and after any further events other than a completion, it is false once
the request has completed, and the session then accepts a new submission: with the chat open,
after a render, an edit to a non-blank input and a render, the submit event appends the user
message and issues its request. -/
theorem loading_cleared_on_completion (s : ChatState) (c : Closure) (es : List Event) (i : Nat)
    (net : FetchOutcome) (v : String) (hf : s.form = some c)
    (ht : jsTrim c.input ≠ "") (hl : c.loading = false)
    (hes : ∀ e ∈ es, e.isSettle = false)
    (hi : i < (run s (Event.submit :: es)).inFlight.length) (hv : jsTrim v ≠ "") :
    (run s (Event.submit :: es)).loading = true ∧
    (run s (Event.submit :: es ++ [Event.settle i net])).loading = false ∧
    (handleSendMessage c s net).state.loading = false ∧
    ((run s (Event.submit :: es ++ [Event.settle i net])).isOpen = true →
      (run (run s (Event.submit :: es ++ [Event.settle i net]))
          [Event.render, Event.edit v, Event.render, Event.submit]).messages =
        (run (run s (Event.submit :: es ++ [Event.settle i net]))
          [Event.render, Event.edit v, Event.render]).messages ++
          [{ sender := Sender.user, text := some v }] ∧
      (run (run s (Event.submit :: es ++ [Event.settle i net]))
          [Event.render, Event.edit v, Event.render, Event.submit]).inFlight =
        (run (run s (Event.submit :: es ++ [Event.settle i net]))
          [Event.render, Event.edit v, Event.render]).inFlight ++
          [buildRequest (run (run s (Event.submit :: es ++ [Event.settle i net]))
            [Event.render, Event.edit v, Event.render]).rendered.userRole v] ∧
      (run (run s (Event.submit :: es ++ [Event.settle i net]))
          [Event.render, Event.edit v, Event.render, Event.submit]).loading = true) := by
  have hs := submit_of_accepted c s ht hl
  have h0 : run s (Event.submit :: es) = run (handleSendMessage.submit c s) es := by
    rw [run_cons]
    simp only [step, hf]
  have h1 : (run s (Event.submit :: es)).loading = true := by
    rw [h0]
    exact run_not_settle es (handleSendMessage.submit c s) (by rw [hs]) hes
  have h2 : run s (Event.submit :: es ++ [Event.settle i net]) =
      step (run s (Event.submit :: es)) (Event.settle i net) := by
    show run s ((Event.submit :: es) ++ [Event.settle i net]) = _
    rw [run_append]; rfl
  have h3 : (run s (Event.submit :: es ++ [Event.settle i net])).loading = false := by
    obtain ⟨text, htext⟩ := resume_eq i net (run s (Event.submit :: es))
    rw [h2]
    simp only [step, hi, if_true, htext, Completion.state]
  refine ⟨h1, h3, ?_, fun hopen => submit_after_render _ v hopen h3 hv⟩
  have hg : ¬ (jsTrim c.input = "" ∨ c.loading = true) := by simp [ht, hl]
  obtain ⟨text, htext⟩ := resume_eq s.inFlight.length net (handleSendMessage.submit c s)
  simp only [handleSendMessage, hg, if_false, htext, Completion.state]

theorem loading_cleared_on_completion_witness :
    (run (run (initialState "Customer" UserProp.undefined)
          [Event.toggle, Event.render, Event.edit "hi", Event.render])
        (Event.submit :: [Event.render, Event.toggle, Event.render, Event.submit])
      ).loading = true ∧
    (run (run (initialState "Customer" UserProp.undefined)
          [Event.toggle, Event.render, Event.edit "hi", Event.render])
        (Event.submit :: [Event.render, Event.toggle, Event.render, Event.submit] ++
          [Event.settle 0 (FetchOutcome.response true (JsonOutcome.rejected "Unexpected token"))])
      ).loading = false :=
  ⟨(loading_cleared_on_completion
      (run (initialState "Customer" UserProp.undefined)
        [Event.toggle, Event.render, Event.edit "hi", Event.render])
      { isOpen := true, input := "hi", loading := false, userRole := "Customer" }
      [Event.render, Event.toggle, Event.render, Event.submit] 0
      (FetchOutcome.response true (JsonOutcome.rejected "Unexpected token")) "again"
      (by decide) (by decide) rfl (by decide) (by decide) (by decide)).1,
   (loading_cleared_on_completion
      (run (initialState "Customer" UserProp.undefined)
        [Event.toggle, Event.render, Event.edit "hi", Event.render])
      { isOpen := true, input := "hi", loading := false, userRole := "Customer" }
      [Event.render, Event.toggle, Event.render, Event.submit] 0
      (FetchOutcome.response true (JsonOutcome.rejected "Unexpected token")) "again"
      (by decide) (by decide) rfl (by decide) (by decide) (by decide)).2.1⟩

/-- C7, as amended: for every role, identity and prior message list, opening the chat sets the
message list to exactly one bot message whose text is the greeting for the role and the
display name: "Hello <name>! How can I assist you with your cultivation, soil health, or
harvesting today?" for role "Producer", "Hello <name>! Do you have questions regarding batch
tracking or processing standards?" for role "Processor", "Welcome <name>! How can I help you
learn about Ayurvedic herbs today?" for any other role; <name> is the part of the email before
"@" when the email is present and not empty, and "there" when the user or the email is absent
or the email is the empty string. -/
theorem open_resets_to_greeting (s : ChatState) (hc : s.rendered.isOpen = false) :
    (step s Event.toggle).isOpen = true ∧
    (run s [Event.toggle, Event.render]).isOpen = true ∧
    (run s [Event.toggle, Event.render]).messages =
      [{ sender := Sender.bot,
         text := some (greetingFor s.rendered.userRole (userName s.currentUser)) }] ∧
    (∀ r u, (run s [Event.toggle, Event.refresh r u]).messages =
      [{ sender := Sender.bot, text := some (greetingFor r (userName u)) }]) ∧
    (∀ name, greetingFor "Producer" name = "Hello " ++ name ++
      "! How can I assist you with your cultivation, soil health, or harvesting today?") ∧
    (∀ name, greetingFor "Processor" name = "Hello " ++ name ++
      "! Do you have questions regarding batch tracking or processing standards?") ∧
    (∀ role name, role ≠ "Producer" → role ≠ "Processor" →
      greetingFor role name = "Welcome " ++ name ++
        "! How can I help you learn about Ayurvedic herbs today?") ∧
    (∀ ref email, email ≠ "" →
      userName (UserProp.object { ref := ref, email := some email }) = splitAtHead email) ∧
    (∀ ref, userName (UserProp.object { ref := ref, email := some "" }) = "there") ∧
    (∀ ref, userName (UserProp.object { ref := ref, email := none }) = "there") ∧
    userName UserProp.null = "there" ∧
    userName UserProp.undefined = "there" := by
  have ht : (step s Event.toggle).isOpen = true := by simp [step, hc]
  have hd : ∀ r u, ¬ ((step s Event.toggle).isOpen = (step s Event.toggle).rendered.isOpen ∧
      r = (step s Event.toggle).rendered.userRole ∧
      objectIs u (step s Event.toggle).currentUser = true) := by
    intro r u h
    have h1 := h.1
    rw [ht] at h1
    have h2 : (step s Event.toggle).rendered.isOpen = false := hc
    rw [h2] at h1
    exact Bool.noConfusion h1
  have hr : ∀ r u, (run s [Event.toggle, Event.refresh r u]).messages =
      [{ sender := Sender.bot, text := some (greetingFor r (userName u)) }] := fun r u =>
    rerender_changed_messages r u (step s Event.toggle) ht (hd r u)
  refine ⟨ht, ?_, ?_, hr, fun _ => rfl, fun _ => ?_, ?_, ?_, fun _ => rfl, fun _ => rfl,
    rfl, rfl⟩
  · exact (rerender_fields _ _ (step s Event.toggle)).1.trans ht
  · exact rerender_changed_messages _ _ (step s Event.toggle) ht (hd _ _)
  · have : ("Processor" : String) ≠ ROLES.producer := by decide
    simp only [greetingFor, this, if_false]
    rfl
  · intro role name h1 h2
    simp [greetingFor, ROLES.producer, ROLES.processor, h1, h2]
  · intro ref email he
    simp [userName, he]

theorem open_resets_to_greeting_witness :
    (run (run (initialState "Processor"
            (UserProp.object { ref := 1, email := some "asha@farm.in" }))
          [Event.toggle, Event.render, Event.edit "hi", Event.render, Event.submit,
           Event.render, Event.toggle, Event.render, Event.exitComplete])
        [Event.toggle, Event.render]).messages =
      [{ sender := Sender.bot,
         text := some (greetingFor "Processor"
           (userName (UserProp.object { ref := 1, email := some "asha@farm.in" }))) }] :=
  (open_resets_to_greeting
    (run (initialState "Processor" (UserProp.object { ref := 1, email := some "asha@farm.in" }))
      [Event.toggle, Event.render, Event.edit "hi", Event.render, Event.submit,
       Event.render, Event.toggle, Event.render, Event.exitComplete])
    (by decide)).2.2.1

/-- C7, as stated, fails: for a user whose email is the empty string the email is not absent,
yet the greeting names "there" and not the (empty) part of the email before "@". -/
theorem open_resets_to_greeting_counterexample :
    (run (initialState "Customer" (UserProp.object { ref := 0, email := some "" }))
        [Event.toggle, Event.render]).messages =
      [{ sender := Sender.bot,
         text := some "Welcome there! How can I help you learn about Ayurvedic herbs today?" }] ∧
    (run (initialState "Customer" (UserProp.object { ref := 0, email := some "" }))
        [Event.toggle, Event.render]).messages ≠
      [{ sender := Sender.bot,
         text := some (greetingFor "Customer"
           (userNameAsStated (UserProp.object { ref := 0, email := some "" }))) }] := by
  constructor
  · decide
  · decide

/-- C10, as amended: while the chat is open, every single transition that keeps it open and is
not a render in which the host passes another role or, by `Object.is`, another user (an input
edit, a submission, a request completion, a re-render, a render with the same role and the
same user) leaves the message list before it a prefix of the message list after it; a render
with another role or another user instead replaces the list by the single greeting for the
new role and user. -/
theorem transcript_append_only (s : ChatState) (e : Event) (ho : s.isOpen = true)
    (hro : s.rendered.isOpen = true) (hk : (step s e).isOpen = true) :
    (e.changesProps s = false → s.messages <+: (step s e).messages) ∧
    (e.changesProps s = true → ∃ userRole currentUser,
      e = Event.refresh userRole currentUser ∧
      (step s e).messages =
        [{ sender := Sender.bot, text := some (greeting userRole currentUser) }]) := by
  cases e with
  | edit v =>
    refine ⟨fun _ => ?_, fun h => by simp [Event.changesProps] at h⟩
    simp only [step]
    split <;> exact List.prefix_refl _
  | toggle => simp [step, hro] at hk
  | submit =>
    refine ⟨fun _ => ?_, fun h => by simp [Event.changesProps] at h⟩
    simp only [step, handleSendMessage.submit]
    split
    · split
      · exact List.prefix_refl _
      · exact List.prefix_append _ _
    · exact List.prefix_refl _
  | settle i net =>
    refine ⟨fun _ => ?_, fun h => by simp [Event.changesProps] at h⟩
    simp only [step]
    split
    · obtain ⟨text, ht⟩ := resume_eq i net s
      rw [ht]
      exact List.prefix_append _ _
    · exact List.prefix_refl _
  | refresh r u =>
    constructor
    · intro h
      have hp : r = s.rendered.userRole ∧ objectIs u s.currentUser = true := by
        simpa [Event.changesProps] using h
      have hm := rerender_same_messages r u s (by rw [ho, hro]) hp.1 hp.2
      show s.messages <+: (rerender r u s).messages
      rw [hm]
    · intro h
      refine ⟨r, u, rfl, ?_⟩
      have hn : ¬ (s.isOpen = s.rendered.isOpen ∧ r = s.rendered.userRole ∧
          objectIs u s.currentUser = true) := by
        rintro ⟨_, h1, h2⟩
        simp [Event.changesProps, h1, h2] at h
      exact rerender_changed_messages r u s ho hn
  | render =>
    refine ⟨fun _ => ?_, fun h => by simp [Event.changesProps] at h⟩
    have hm := rerender_same_messages s.rendered.userRole s.currentUser s (by rw [ho, hro]) rfl
      (objectIs_self _)
    show s.messages <+: (rerender s.rendered.userRole s.currentUser s).messages
    rw [hm]
  | exitComplete =>
    refine ⟨fun _ => ?_, fun h => by simp [Event.changesProps] at h⟩
    simp only [step]
    split <;> exact List.prefix_refl _

theorem transcript_append_only_witness :
    ((run (initialState "Customer" UserProp.undefined)
        [Event.toggle, Event.render, Event.edit "hi", Event.render]).messages <+:
      (step (run (initialState "Customer" UserProp.undefined)
        [Event.toggle, Event.render, Event.edit "hi", Event.render]) Event.submit).messages) ∧
    (∃ userRole currentUser,
      Event.refresh "Customer" UserProp.null = Event.refresh userRole currentUser ∧
      (step (run (initialState "Customer" UserProp.undefined)
          [Event.toggle, Event.render, Event.edit "hi", Event.render, Event.submit,
           Event.render])
        (Event.refresh "Customer" UserProp.null)).messages =
        [{ sender := Sender.bot, text := some (greeting userRole currentUser) }]) :=
  ⟨(transcript_append_only
      (run (initialState "Customer" UserProp.undefined)
        [Event.toggle, Event.render, Event.edit "hi", Event.render])
      Event.submit (by decide) (by decide) (by decide)).1 rfl,
   (transcript_append_only
      (run (initialState "Customer" UserProp.undefined)
        [Event.toggle, Event.render, Event.edit "hi", Event.render, Event.submit,
         Event.render])
      (Event.refresh "Customer" UserProp.null) (by decide) (by decide) (by decide)).2
      (by decide)⟩

/-- C10, as stated, fails: open the chat as a customer, type "hi" and submit; a render in
which the hosting context then passes the role "Producer" keeps the chat open and replaces the
transcript (greeting, user message) by a new greeting, of which the old transcript is not a
prefix. -/
theorem transcript_append_only_counterexample :
    (run (initialState "Customer" UserProp.undefined)
        [Event.toggle, Event.render, Event.edit "hi", Event.render, Event.submit,
         Event.render]).isOpen = true ∧
    (step (run (initialState "Customer" UserProp.undefined)
        [Event.toggle, Event.render, Event.edit "hi", Event.render, Event.submit,
         Event.render])
        (Event.refresh "Producer" UserProp.undefined)).isOpen = true ∧
    (run (initialState "Customer" UserProp.undefined)
        [Event.toggle, Event.render, Event.edit "hi", Event.render, Event.submit,
         Event.render]).messages =
      [{ sender := Sender.bot,
         text := some "Welcome there! How can I help you learn about Ayurvedic herbs today?" },
       { sender := Sender.user, text := some "hi" }] ∧
    (step (run (initialState "Customer" UserProp.undefined)
        [Event.toggle, Event.render, Event.edit "hi", Event.render, Event.submit,
         Event.render])
        (Event.refresh "Producer" UserProp.undefined)).messages =
      [{ sender := Sender.bot,
         text := some ("Hello there! How can I assist you with your cultivation, soil health, " ++
           "or harvesting today?") }] ∧
    ¬ ((run (initialState "Customer" UserProp.undefined)
          [Event.toggle, Event.render, Event.edit "hi", Event.render, Event.submit,
           Event.render]).messages <+:
      (step (run (initialState "Customer" UserProp.undefined)
        [Event.toggle, Event.render, Event.edit "hi", Event.render, Event.submit,
         Event.render])
        (Event.refresh "Producer" UserProp.undefined)).messages) := by
  refine ⟨?_, ?_, ?_, ?_, ?_⟩
  · decide
  · decide
  · decide
  · decide
  · decide

/-! ## Claims on the record map -/

/-- C8, as amended: for every response to the initial load of the map: when the body parses
with `status` "success" and a `data` field that holds a sequence of records, the record set
becomes exactly that sequence and exactly one marker is rendered per record, at (latitude,
longitude) of that record and in the same order; when the fetch fails, the body does not
parse, or `status` is anything else, the record set stays empty and no marker is rendered. -/
theorem map_load_markers {ν : Type} (net : LoadOutcome ν) :
    (∀ result recs, net = LoadOutcome.parsed result → result.status = some "success" →
      result.data = some recs →
      (loadEffect (MapState.initial ν) net).herbData = some recs ∧
      renderMarkers (loadEffect (MapState.initial ν) net) =
        some (recs.map (fun herb =>
          { key := herb.id, position := (herb.latitude, herb.longitude), popup := herb })) ∧
      (∀ markers, renderMarkers (loadEffect (MapState.initial ν) net) = some markers →
        markers.length = recs.length ∧
        markers.map (fun m => m.position) =
          recs.map (fun herb => (herb.latitude, herb.longitude)))) ∧
    ((∀ result, net = LoadOutcome.parsed result → result.status ≠ some "success") →
      (loadEffect (MapState.initial ν) net).herbData = some [] ∧
      renderMarkers (loadEffect (MapState.initial ν) net) = some []) := by
  constructor
  · intro result recs hnet hstatus hdata
    subst hnet
    have hr : renderMarkers (loadEffect (MapState.initial ν) (LoadOutcome.parsed result)) =
        some (recs.map (fun herb =>
          { key := herb.id, position := (herb.latitude, herb.longitude), popup := herb })) := by
      simp [loadEffect, hstatus, hdata, renderMarkers]
    refine ⟨by simp [loadEffect, hstatus, hdata], hr, ?_⟩
    intro markers hm
    rw [hr] at hm
    cases hm
    simp [List.map_map, Function.comp_def]
  · intro h
    cases net with
    | fetchRejected m => exact ⟨rfl, rfl⟩
    | jsonRejected m => exact ⟨rfl, rfl⟩
    | parsed result =>
      have := h result rfl
      simp [loadEffect, this, renderMarkers, MapState.initial]

theorem map_load_markers_witness :
    renderMarkers (loadEffect (MapState.initial ℚ) (LoadOutcome.parsed
      { status := some "success",
        data := some [{ id := 1, name := "Tulsi", latitude := 20, longitude := 77,
                        verified_species := "Ocimum tenuiflorum", confidence_score := 1 }] })) =
      some [{ key := 1, position := (20, 77),
              popup := { id := 1, name := "Tulsi", latitude := 20, longitude := 77,
                         verified_species := "Ocimum tenuiflorum", confidence_score := 1 } }] ∧
    renderMarkers (loadEffect (MapState.initial ℚ) (LoadOutcome.parsed
      { status := some "error", data := none })) = some [] ∧
    renderMarkers (loadEffect (MapState.initial ℚ) (LoadOutcome.fetchRejected "Failed to fetch")) =
      some [] :=
  ⟨((map_load_markers (LoadOutcome.parsed
      { status := some "success",
        data := some [{ id := 1, name := "Tulsi", latitude := (20 : ℚ), longitude := 77,
                        verified_species := "Ocimum tenuiflorum", confidence_score := 1 }] })).1
      _ _ rfl rfl rfl).2.1,
   ((map_load_markers (LoadOutcome.parsed
      { status := some "error", data := (none : Option (List (HerbRecord ℚ))) })).2
      (fun result h => by cases h; decide)).2,
   ((map_load_markers (LoadOutcome.fetchRejected "Failed to fetch" : LoadOutcome ℚ)).2
      (fun result h => by cases h)).2⟩

/-- C8, as stated, fails: a body that parses with `status` "success" and has no `data` field
is a response to the initial load. `setHerbData(result.data)` then stores `undefined`: the
record set is not the sequence of any data field, and `herbData.map` throws in the render, so
no list of markers is rendered at all. -/
theorem map_load_markers_counterexample :
    (loadEffect (MapState.initial ℚ) (LoadOutcome.parsed
      { status := some "success", data := none })).herbData = none ∧
    renderMarkers (loadEffect (MapState.initial ℚ) (LoadOutcome.parsed
      { status := some "success", data := none })) = none ∧
    ¬ ∃ recs : List (HerbRecord ℚ),
      (loadEffect (MapState.initial ℚ) (LoadOutcome.parsed
        { status := some "success", data := none })).herbData = some recs ∧
      renderMarkers (loadEffect (MapState.initial ℚ) (LoadOutcome.parsed
        { status := some "success", data := none })) =
        some (recs.map (fun herb =>
          { key := herb.id, position := (herb.latitude, herb.longitude), popup := herb })) := by
  refine ⟨rfl, rfl, ?_⟩
  rintro ⟨recs, h, _⟩
  exact Option.noConfusion h

end HerbTrace
